import Mathlib

/-!
Verification of the btc-basis-trade decision-and-execution engine.

Shallow embedding of the core modules:
* `src/btc_basis/core/models.py` — `Signal`, `TradeConfig`, `MarketData` and its
  derived basis metrics;
* `src/btc_basis/core/analyzer.py` — `BasisTradeAnalyzer.calculate_returns`,
  `generate_signal`, `calculate_position_sizing`;
* `src/btc_basis/execution/models.py` / `executor.py` / `manager.py` /
  `position.py` — order pairs, the signal→action table, and the persisted
  position tracker;
* `btc_basis_backtest.py` — the backtest trade lifecycle.

Modelling conventions:
* Python floats become `ℚ` (decimal literals in the source are exact in `ℚ`);
* dates become integer day numbers (`ℤ`); `timedelta.days` between two dates is
  integer subtraction;
* `datetime.now()` becomes an explicit `now : ℤ` argument threaded to every
  function whose Python source may read the ambient clock;
* Python truthiness on optional floats (`if x:`) is `x` present and nonzero;
* Python `round` is round-half-to-even, `int()` truncates toward zero;
* fallible code returns `Except`.
-/

/-- Python `round` on a rational: nearest integer, ties to the even integer. -/
def pyRoundHalfEven (q : ℚ) : ℤ :=
  let f : ℤ := ⌊q⌋
  let frac : ℚ := q - (f : ℚ)
  if frac < 1/2 then f
  else if 1/2 < frac then f + 1
  else if f % 2 = 0 then f else f + 1

/-- Python `int()` on a rational: truncation toward zero. -/
def pyTrunc (q : ℚ) : ℤ :=
  if 0 ≤ q then ⌊q⌋ else ⌈q⌉

/-- Python `round(x, 2)` used for limit prices: round to 2 decimal places. -/
def pyRound2 (q : ℚ) : ℚ :=
  (pyRoundHalfEven (q * 100) : ℚ) / 100

/-- Python truthiness of an optional float: present and nonzero. -/
def pyTruthy (o : Option ℚ) : Bool :=
  match o with
  | none => false
  | some q => decide (q ≠ 0)

/-- Fixed-point decimal formatting of a rational, as Python `format(x, '.Nf')`
(round half to even), used for the interpolated reason strings. -/
def fmtFixed (prec : Nat) (q : ℚ) : String :=
  let scaled : ℤ := pyRoundHalfEven (q * ((10 : ℚ) ^ prec))
  let sign := if scaled < 0 then "-" else ""
  let a := scaled.natAbs
  let p : Nat := 10 ^ prec
  let ipStr := toString (a / p)
  let fpStr := toString (a % p)
  let fpPad := String.mk (List.replicate (prec - fpStr.length) '0') ++ fpStr
  if prec = 0 then sign ++ ipStr else sign ++ ipStr ++ "." ++ fpPad

/-- `Signal` enum of `core/models.py`. -/
inductive Signal where
  | STRONG_ENTRY
  | ACCEPTABLE_ENTRY
  | NO_ENTRY
  | PARTIAL_EXIT
  | FULL_EXIT
  | STOP_LOSS
  | HOLD
deriving Repr, DecidableEq

/-- `TradeConfig` dataclass of `core/models.py` (field defaults as in source). -/
structure TradeConfig where
  account_size : ℚ := 200000
  spot_target_pct : ℚ := 0.50
  futures_target_pct : ℚ := 0.50
  funding_cost_annual : ℚ := 0.05
  leverage : ℚ := 1.0
  cme_contract_size : ℚ := 5.0
  min_monthly_basis : ℚ := 0.005
deriving Repr, DecidableEq

/-- `TradeConfig.spot_target_amount` property. -/
def TradeConfig.spot_target_amount (c : TradeConfig) : ℚ :=
  c.account_size * c.spot_target_pct

/-- `TradeConfig.futures_target_amount` property. -/
def TradeConfig.futures_target_amount (c : TradeConfig) : ℚ :=
  c.account_size * c.futures_target_pct

/-- `MarketData` dataclass of `core/models.py`; dates are integer day numbers.
The string-typed identification fields (`pair_id`, `spot_symbol`,
`futures_symbol`) play no role in any computation modelled here. -/
structure MarketData where
  spot_price : ℚ
  futures_price : ℚ
  futures_expiry_date : ℤ
  etf_price : Option ℚ := none
  etf_nav : Option ℚ := none
  fear_greed_index : Option ℚ := none
  cme_open_interest : Option ℚ := none
  as_of_date : Option ℤ := none
deriving Repr, DecidableEq

/-- `MarketData.basis_absolute`: `futures_price - spot_price`. -/
def MarketData.basis_absolute (m : MarketData) : ℚ :=
  m.futures_price - m.spot_price

/-- `MarketData.basis_percent`: `basis_absolute / spot_price`. -/
def MarketData.basis_percent (m : MarketData) : ℚ :=
  m.basis_absolute / m.spot_price

/-- `MarketData.days_to_expiry`: reference date is `as_of_date` when present
(a datetime is always truthy), otherwise `datetime.now()` — the explicit `now`
argument. -/
def MarketData.days_to_expiry (m : MarketData) (now : ℤ) : ℤ :=
  m.futures_expiry_date - m.as_of_date.getD now

/-- `MarketData.monthly_basis`: zero when `days_to_expiry == 0`, otherwise
`basis_percent * (30 / days_to_expiry)`. -/
def MarketData.monthly_basis (m : MarketData) (now : ℤ) : ℚ :=
  if m.days_to_expiry now = 0 then 0
  else m.basis_percent * (30 / (m.days_to_expiry now : ℚ))

/-- `MarketData.annualized_basis`. -/
def MarketData.annualized_basis (m : MarketData) (now : ℤ) : ℚ :=
  if m.days_to_expiry now = 0 then 0
  else m.basis_percent * (365 / (m.days_to_expiry now : ℚ))

/-- `MarketData.etf_discount_premium`: `(etf_price - etf_nav) / etf_nav` when
both `etf_price` and `etf_nav` are truthy, else `None`. -/
def MarketData.etf_discount_premium (m : MarketData) : Option ℚ :=
  match m.etf_price, m.etf_nav with
  | some p, some n => if p ≠ 0 ∧ n ≠ 0 then some ((p - n) / n) else none
  | _, _ => none

/-- The dictionary returned by `BasisTradeAnalyzer.calculate_returns`. -/
structure ReturnMetrics where
  basis_absolute : ℚ
  basis_percent : ℚ
  monthly_basis : ℚ
  gross_annualized : ℚ
  net_annualized : ℚ
  leveraged_return : ℚ
deriving Repr, DecidableEq

/-- `BasisTradeAnalyzer.calculate_returns` (`core/analyzer.py`). -/
def calculate_returns (cfg : TradeConfig) (m : MarketData) (now : ℤ) : ReturnMetrics :=
  if m.days_to_expiry now = 0 then
    { basis_absolute := 0, basis_percent := 0, monthly_basis := 0
      gross_annualized := 0, net_annualized := 0, leveraged_return := 0 }
  else
    let gross_annualized := m.basis_percent * (365 / (m.days_to_expiry now : ℚ))
    let net_annualized := gross_annualized - cfg.funding_cost_annual
    let leveraged_return := net_annualized * cfg.leverage
    { basis_absolute := m.basis_absolute
      basis_percent := m.basis_percent * 100
      monthly_basis := m.monthly_basis now * 100
      gross_annualized := gross_annualized * 100
      net_annualized := net_annualized * 100
      leveraged_return := leveraged_return * 100 }

/-- The Python condition `market.etf_discount_premium and
market.etf_discount_premium < -0.01` of `generate_signal`. -/
def etf_stress_check (m : MarketData) : Bool :=
  match m.etf_discount_premium with
  | some d => decide (d ≠ 0) && decide (d < -0.01)
  | none => false

/-- The Python condition `market.fear_greed_index and
market.fear_greed_index > 0.8` of `generate_signal`. -/
def fear_greed_check (m : MarketData) : Bool :=
  match m.fear_greed_index with
  | some f => decide (f ≠ 0) && decide (f > 0.8)
  | none => false

/-- `BasisTradeAnalyzer.generate_signal` (`core/analyzer.py`). -/
def generate_signal (cfg : TradeConfig) (m : MarketData) (now : ℤ) : Signal × String :=
  let monthly_basis := m.monthly_basis now
  if monthly_basis < 0 then
    (.STOP_LOSS, "Backwardation detected - basis negative")
  else if monthly_basis < 0.002 then
    (.STOP_LOSS, "Basis compressed below 0.2% monthly")
  else
    let monthly_funding := cfg.funding_cost_annual / 12
    if monthly_basis < monthly_funding then
      (.STOP_LOSS, "Basis below funding cost (" ++ fmtFixed 2 (monthly_funding * 100) ++ "% monthly)")
    else if etf_stress_check m then
      (.STOP_LOSS, "ETF discount > 1% - liquidity stress")
    else if monthly_basis > 0.035 then
      (.FULL_EXIT, "Basis at peak levels (>3.5% monthly) - take profit")
    else if monthly_basis > 0.025 then
      (.PARTIAL_EXIT, "Elevated basis (>2.5% monthly) - partial exit")
    else if monthly_basis > 0.01 then
      if fear_greed_check m then
        (.STRONG_ENTRY, "Strong basis + high Fear & Greed - optimal entry")
      else
        (.STRONG_ENTRY, "Strong basis >1.0% monthly")
    else if monthly_basis > cfg.min_monthly_basis then
      (.ACCEPTABLE_ENTRY, "Acceptable basis " ++ fmtFixed 1 (cfg.min_monthly_basis * 100) ++ "-1.0% monthly")
    else
      (.NO_ENTRY, "Basis too low (" ++ fmtFixed 2 (monthly_basis * 100) ++ "% monthly, min " ++ fmtFixed 1 (cfg.min_monthly_basis * 100) ++ "%)")

/-- The signal ladder exactly as the specification words it (spec §4.1): the
fixed priority list with first match winning; the ETF clause fires when the
discount/premium is *present* and below −1%. Used to compare the code's
`generate_signal` against the spec. -/
def spec_signal_ladder (cfg : TradeConfig) (m : MarketData) (now : ℤ) : Signal :=
  let monthly_basis := m.monthly_basis now
  if monthly_basis < 0 then .STOP_LOSS
  else if monthly_basis < 0.002 then .STOP_LOSS
  else if monthly_basis < cfg.funding_cost_annual / 12 then .STOP_LOSS
  else if (match m.etf_discount_premium with
           | some d => decide (d < -0.01)
           | none => false) then .STOP_LOSS
  else if monthly_basis > 0.035 then .FULL_EXIT
  else if monthly_basis > 0.025 then .PARTIAL_EXIT
  else if monthly_basis > 0.01 then .STRONG_ENTRY
  else if monthly_basis > cfg.min_monthly_basis then .ACCEPTABLE_ENTRY
  else .NO_ENTRY

/-- The dictionary returned by `BasisTradeAnalyzer.calculate_position_sizing`. -/
structure PositionSizing where
  etf_shares : Option ℤ
  etf_value : ℚ
  futures_contracts : ℤ
  futures_btc : ℚ
  futures_value : ℚ
  total_exposure : ℚ
  delta_neutral : Bool
deriving Repr, DecidableEq

/-- `BasisTradeAnalyzer.calculate_position_sizing` (`core/analyzer.py`):
futures leg first (`max(1, round(contracts_needed))`), spot leg sized to the
futures notional when an ETF price is truthy. -/
def calculate_position_sizing (cfg : TradeConfig) (m : MarketData) : PositionSizing :=
  let futures_amount := cfg.futures_target_amount
  let btc_amount := futures_amount / m.spot_price
  let contracts_needed := btc_amount / cfg.cme_contract_size
  let contracts : ℤ := max 1 (pyRoundHalfEven contracts_needed)
  let actual_futures_value := (contracts : ℚ) * cfg.cme_contract_size * m.spot_price
  let leg : Option ℤ × ℚ :=
    match m.etf_price with
    | some p =>
        if p ≠ 0 then
          let etf_shares := pyTrunc (actual_futures_value / p)
          (some etf_shares, (etf_shares : ℚ) * p)
        else (none, actual_futures_value)
    | none => (none, actual_futures_value)
  { etf_shares := leg.1
    etf_value := leg.2
    futures_contracts := contracts
    futures_btc := (contracts : ℚ) * cfg.cme_contract_size
    futures_value := actual_futures_value
    total_exposure := leg.2 + actual_futures_value
    delta_neutral := decide (|leg.2 - actual_futures_value| < 1000) }

/-! ### Helper lemmas -/

lemma pyTrunc_eq_floor (q : ℚ) (h : 0 ≤ q) : pyTrunc q = ⌊q⌋ := if_pos h

/-- The code's ETF stress condition (Python truthiness: `d ≠ 0 && d < -0.01`)
agrees with the spec's "present and `< -0.01`" reading, because any value
below −0.01 is in particular nonzero. -/
lemma etf_check_eq_spec (m : MarketData) :
    etf_stress_check m = (match m.etf_discount_premium with
                          | some d => decide (d < -0.01)
                          | none => false) := by
  unfold etf_stress_check
  cases m.etf_discount_premium with
  | none => rfl
  | some d =>
      by_cases h : d < -0.01
      · have hne : d ≠ 0 := by
          intro h0
          rw [h0] at h
          norm_num at h
        simp [h, hne]
      · simp [h]

/-! ### Example inputs -/

/-- The spec's worked example: spot 100000, futures 102000, expiry 30 days
after the reference date. -/
def exampleMarketC1 : MarketData :=
  { spot_price := 100000, futures_price := 102000, futures_expiry_date := 30,
    as_of_date := some 0 }

/-- A snapshot with strictly negative days-to-expiry (expiry 30 days before
the reference date) and a 2% positive raw basis. -/
def marketNegDays : MarketData :=
  { spot_price := 100000, futures_price := 102000, futures_expiry_date := -30,
    as_of_date := some 0 }

/-- A snapshot whose expiry equals the reference date (`days_to_expiry = 0`). -/
def marketZeroDays : MarketData :=
  { spot_price := 100000, futures_price := 102000, futures_expiry_date := 0,
    as_of_date := some 0 }

/-- A snapshot with no `as_of_date`: the reference date falls back to the
ambient clock. -/
def marketNoAsOf : MarketData :=
  { spot_price := 100000, futures_price := 102000, futures_expiry_date := 30 }

/-- The spec's sizing example: `futures_target_amount = 100000`
(account 200000 at 50%), contract size 0.1. -/
def sizingExampleConfig : TradeConfig :=
  { account_size := 200000, futures_target_pct := 0.5, cme_contract_size := 0.1 }

/-- The spec's sizing example market: spot 95000 (with an ETF quote present). -/
def sizingExampleMarket : MarketData :=
  { spot_price := 95000, futures_price := 97000, futures_expiry_date := 30,
    etf_price := some 54, as_of_date := some 0 }

/-! ### Claim theorems on the signal engine and sizing -/

/-- C1: `generate_signal` returns the first matching case of the fixed ladder
(backwardation / compressed / below funding / ETF stress → STOP_LOSS;
`>3.5%` → FULL_EXIT; `>2.5%` → PARTIAL_EXIT; `>1%` → STRONG_ENTRY;
`> min_monthly_basis` → ACCEPTABLE_ENTRY; else NO_ENTRY), and on the worked
example (spot 100000, futures 102000, 30-day expiry, default config,
`monthly_basis = 2%`) it returns STRONG_ENTRY. -/
theorem C1_generate_signal_ladder :
    (∀ (cfg : TradeConfig) (m : MarketData) (now : ℤ),
        (generate_signal cfg m now).1 = spec_signal_ladder cfg m now) ∧
    (generate_signal {} exampleMarketC1 0).1 = Signal.STRONG_ENTRY := by
  constructor
  · intro cfg m now
    simp only [generate_signal, spec_signal_ladder, etf_check_eq_spec]
    split_ifs <;> rfl
  · with_unfolding_all decide

/-- C10 (implicit): the signal engine's codomain excludes HOLD — for every
input, `generate_signal` returns one of the six signals STOP_LOSS, FULL_EXIT,
PARTIAL_EXIT, STRONG_ENTRY, ACCEPTABLE_ENTRY, NO_ENTRY, never HOLD. -/
theorem C10_signal_never_hold :
    ∀ (cfg : TradeConfig) (m : MarketData) (now : ℤ),
      (generate_signal cfg m now).1 ∈
        [Signal.STOP_LOSS, Signal.FULL_EXIT, Signal.PARTIAL_EXIT,
         Signal.STRONG_ENTRY, Signal.ACCEPTABLE_ENTRY, Signal.NO_ENTRY] ∧
      (generate_signal cfg m now).1 ≠ Signal.HOLD := by
  intro cfg m now
  simp only [generate_signal]
  split_ifs <;> simp

/-- C9 counterexample: with `as_of_date` absent, `days_to_expiry` reads the
ambient clock, so the same `(snapshot, config)` pair evaluated at two
different wall-clock times yields different signals (STRONG_ENTRY at day 0,
STOP_LOSS at day 30 when the horizon has shrunk to zero). -/
theorem C9_counterexample_ambient_clock :
    generate_signal {} marketNoAsOf 0 ≠ generate_signal {} marketNoAsOf 30 := by
  with_unfolding_all decide

/-- C9 (amended): `generate_signal` is a pure function of
`(snapshot, config, reference date)`; whenever the snapshot carries an
explicit `as_of_date`, the result does not depend on the ambient clock. -/
theorem C9_pure_function_of_reference_date :
    ∀ (cfg : TradeConfig) (m : MarketData) (now₁ now₂ : ℤ),
      m.as_of_date.isSome → generate_signal cfg m now₁ = generate_signal cfg m now₂ := by
  intro cfg m n₁ n₂ h
  obtain ⟨a, ha⟩ := Option.isSome_iff_exists.mp h
  have hm : m.monthly_basis n₁ = m.monthly_basis n₂ := by
    simp [MarketData.monthly_basis, MarketData.days_to_expiry, ha]
  simp only [generate_signal, hm]

/-- Witness for C9's amended theorem at a concrete snapshot with
`as_of_date` present, evaluated at two different ambient times. -/
theorem C9_pure_function_witness :
    exampleMarketC1.as_of_date.isSome = true ∧
      generate_signal {} exampleMarketC1 5 = generate_signal {} exampleMarketC1 99 :=
  ⟨rfl, C9_pure_function_of_reference_date {} exampleMarketC1 5 99 rfl⟩

/-- C4 counterexample: for strictly negative `days_to_expiry` the derived
metrics are *not* zero — the guard in `MarketData.monthly_basis` and
`calculate_returns` only covers `days_to_expiry == 0`, so an expired
snapshot with positive raw basis yields a negative monthly basis and nonzero
return fields. -/
theorem C4_counterexample_negative_days :
    marketNegDays.days_to_expiry 0 ≤ 0 ∧
      marketNegDays.monthly_basis 0 ≠ 0 ∧
      (calculate_returns {} marketNegDays 0).basis_absolute ≠ 0 ∧
      (calculate_returns {} marketNegDays 0).monthly_basis ≠ 0 := by
  with_unfolding_all decide

/-- C4 (amended): for every snapshot whose `days_to_expiry` is exactly zero,
all derived basis metrics are zero — `monthly_basis` is 0 and
`calculate_returns` returns the all-zero record (total, no division error);
for negative `days_to_expiry` the metrics are computed against the negative
horizon instead. -/
theorem C4_zero_days_zero_metrics :
    ∀ (cfg : TradeConfig) (m : MarketData) (now : ℤ), m.days_to_expiry now = 0 →
      m.monthly_basis now = 0 ∧
      calculate_returns cfg m now =
        { basis_absolute := 0, basis_percent := 0, monthly_basis := 0,
          gross_annualized := 0, net_annualized := 0, leveraged_return := 0 } := by
  intro cfg m now h
  constructor
  · simp [MarketData.monthly_basis, h]
  · simp [calculate_returns, h]

/-- Witness for C4's amended theorem at a snapshot whose expiry equals the
reference date. -/
theorem C4_zero_days_witness :
    marketZeroDays.days_to_expiry 0 = 0 ∧ marketZeroDays.monthly_basis 0 = 0 :=
  ⟨rfl, (C4_zero_days_zero_metrics {} marketZeroDays 0 rfl).1⟩

/-- In `calculate_position_sizing`, when the ETF price is present and nonzero
(Python-truthy), the spot leg is `int(futures_notional / etf_price)` shares
valued at `shares * etf_price`. -/
lemma sizing_etf_branch (cfg : TradeConfig) (m : MarketData) (p : ℚ)
    (hp : m.etf_price = some p) (hpn : p ≠ 0) :
    (calculate_position_sizing cfg m).etf_shares
        = some (pyTrunc ((calculate_position_sizing cfg m).futures_value / p)) ∧
    (calculate_position_sizing cfg m).etf_value
        = ((pyTrunc ((calculate_position_sizing cfg m).futures_value / p) : ℤ) : ℚ) * p := by
  simp only [calculate_position_sizing, hp]
  rw [if_pos hpn]
  exact ⟨rfl, rfl⟩

/-- C5: position sizing computes the futures leg first —
`max(1, round(target/spot/contract_size))` contracts (never below 1), notional
`contracts * contract_size * spot` — then, when an ETF price `> 0` is present,
`etf_shares = floor(notional / etf_price)` with spot-leg value
`etf_shares * etf_price`; `delta_neutral` holds exactly when the two leg
values differ by less than 1000. The worked example
(target 100000, spot 95000, contract 0.1) sizes 11 contracts. -/
theorem C5_position_sizing :
    (∀ (cfg : TradeConfig) (m : MarketData),
      0 < cfg.account_size → 0 < cfg.cme_contract_size → 0 < m.spot_price →
      (calculate_position_sizing cfg m).futures_contracts
          = max 1 (pyRoundHalfEven ((cfg.futures_target_amount / m.spot_price) / cfg.cme_contract_size)) ∧
      1 ≤ (calculate_position_sizing cfg m).futures_contracts ∧
      (calculate_position_sizing cfg m).futures_value
          = ((calculate_position_sizing cfg m).futures_contracts : ℚ) * cfg.cme_contract_size * m.spot_price ∧
      (∀ p : ℚ, m.etf_price = some p → 0 < p →
        (calculate_position_sizing cfg m).etf_shares
            = some ⌊(calculate_position_sizing cfg m).futures_value / p⌋ ∧
        (calculate_position_sizing cfg m).etf_value
            = (⌊(calculate_position_sizing cfg m).futures_value / p⌋ : ℚ) * p) ∧
      ((calculate_position_sizing cfg m).delta_neutral = true ↔
        |(calculate_position_sizing cfg m).etf_value - (calculate_position_sizing cfg m).futures_value| < 1000)) ∧
    (calculate_position_sizing sizingExampleConfig sizingExampleMarket).futures_contracts = 11 := by
  constructor
  · intro cfg m hA hC hS
    have hc1 : (1 : ℤ) ≤ (calculate_position_sizing cfg m).futures_contracts :=
      le_max_left _ _
    have hfvpos : 0 < (calculate_position_sizing cfg m).futures_value := by
      have h1 : (0 : ℚ) < ((calculate_position_sizing cfg m).futures_contracts : ℚ) := by
        exact_mod_cast lt_of_lt_of_le zero_lt_one hc1
      exact mul_pos (mul_pos h1 hC) hS
    refine ⟨rfl, hc1, rfl, ?_, ?_⟩
    · intro p hp hpp
      have hnn : 0 ≤ (calculate_position_sizing cfg m).futures_value / p :=
        div_nonneg hfvpos.le hpp.le
      obtain ⟨h1, h2⟩ := sizing_etf_branch cfg m p hp hpp.ne'
      rw [h1, h2, pyTrunc_eq_floor _ hnn]
      exact ⟨rfl, rfl⟩
    · simp [calculate_position_sizing]
  · with_unfolding_all decide

/-- Witness for C5 at the spec's worked sizing example (hypotheses
discharged at account 200000, contract size 0.1, spot 95000, ETF price 54). -/
theorem C5_position_sizing_witness :
    (0 : ℚ) < sizingExampleConfig.account_size ∧
    (0 : ℚ) < sizingExampleConfig.cme_contract_size ∧
    (0 : ℚ) < sizingExampleMarket.spot_price ∧
    1 ≤ (calculate_position_sizing sizingExampleConfig sizingExampleMarket).futures_contracts ∧
    (calculate_position_sizing sizingExampleConfig sizingExampleMarket).etf_shares
      = some ⌊(calculate_position_sizing sizingExampleConfig sizingExampleMarket).futures_value / 54⌋ := by
  have h := (C5_position_sizing.1 sizingExampleConfig sizingExampleMarket
    (by norm_num [sizingExampleConfig]) (by norm_num [sizingExampleConfig])
    (by norm_num [sizingExampleMarket]))
  exact ⟨by norm_num [sizingExampleConfig], by norm_num [sizingExampleConfig],
    by norm_num [sizingExampleMarket], h.2.1,
    (h.2.2.2.1 54 rfl (by norm_num)).1⟩

/-! ### Position persistence (`src/btc_basis/execution/position.py`) -/

/-- `Position` dataclass (field defaults as in source). -/
structure Position where
  etf_shares : ℤ := 0
  etf_symbol : String := "IBIT"
  etf_entry_price : ℚ := 0.0
  futures_contracts : ℤ := 0
  futures_symbol : String := "MBT"
  futures_entry_price : ℚ := 0.0
  futures_expiry : Option String := none
  opened_at : Option String := none
deriving Repr, DecidableEq

/-- `Position.is_open`: any leg open. -/
def Position.is_open (p : Position) : Bool :=
  decide (p.etf_shares > 0) || decide (p.futures_contracts > 0)

/-- `Position.is_balanced`: both legs open. -/
def Position.is_balanced (p : Position) : Bool :=
  decide (p.etf_shares > 0) && decide (p.futures_contracts > 0)

/-- JSON values as produced/consumed by Python's `json` module (which keeps
`int` and `float` distinct). -/
inductive JVal where
  | null
  | bool (b : Bool)
  | int (n : ℤ)
  | float (q : ℚ)
  | str (s : String)
  | arr (elems : List JVal)
  | obj (fields : List (String × JVal))

/-- Python exceptions that can escape `PositionTracker.load` (only
`json.JSONDecodeError` and `KeyError` are caught there). -/
inductive PyErr where
  | attributeError
  | typeError
deriving Repr, DecidableEq

/-- `dict.get` on a JSON object's field list. -/
def jGet (fields : List (String × JVal)) (key : String) : Option JVal :=
  (fields.find? (fun kv => kv.1 == key)).map (fun kv => kv.2)

/-- Read an int-typed field with a default. A present field of the wrong type
is modelled as the `TypeError` the loaded position raises at its first use
(e.g. the `pos.is_open` comparison in `load`). -/
def readIntField (fields : List (String × JVal)) (key : String) (dflt : ℤ) :
    Except PyErr ℤ :=
  match jGet fields key with
  | none => .ok dflt
  | some (.int n) => .ok n
  | some _ => .error .typeError

/-- Read a float-typed field with a default (a JSON int is an acceptable
numeric value in Python). -/
def readFloatField (fields : List (String × JVal)) (key : String) (dflt : ℚ) :
    Except PyErr ℚ :=
  match jGet fields key with
  | none => .ok dflt
  | some (.float q) => .ok q
  | some (.int n) => .ok (n : ℚ)
  | some _ => .error .typeError

/-- Read a string-typed field with a default. -/
def readStrField (fields : List (String × JVal)) (key : String) (dflt : String) :
    Except PyErr String :=
  match jGet fields key with
  | none => .ok dflt
  | some (.str s) => .ok s
  | some _ => .error .typeError

/-- Read an optional-string field (default `None`). -/
def readOptStrField (fields : List (String × JVal)) (key : String) :
    Except PyErr (Option String) :=
  match jGet fields key with
  | none => .ok none
  | some .null => .ok none
  | some (.str s) => .ok (some s)
  | some _ => .error .typeError

/-- `Position.to_dict`. -/
def Position.to_dict (p : Position) : JVal :=
  .obj [("etf_shares", .int p.etf_shares),
        ("etf_symbol", .str p.etf_symbol),
        ("etf_entry_price", .float p.etf_entry_price),
        ("futures_contracts", .int p.futures_contracts),
        ("futures_symbol", .str p.futures_symbol),
        ("futures_entry_price", .float p.futures_entry_price),
        ("futures_expiry", match p.futures_expiry with
                           | some s => .str s
                           | none => .null),
        ("opened_at", match p.opened_at with
                      | some s => .str s
                      | none => .null)]

/-- `Position.from_dict`: `data.get(field, default)` for every field. Calling
it on a non-dict JSON value (list, number, …) raises `AttributeError`
(`data.get` does not exist), which `load` does not catch. -/
def Position.from_dict (j : JVal) : Except PyErr Position :=
  match j with
  | .obj fields => do
      let etf_shares ← readIntField fields "etf_shares" 0
      let etf_symbol ← readStrField fields "etf_symbol" "IBIT"
      let etf_entry_price ← readFloatField fields "etf_entry_price" 0.0
      let futures_contracts ← readIntField fields "futures_contracts" 0
      let futures_symbol ← readStrField fields "futures_symbol" "MBT"
      let futures_entry_price ← readFloatField fields "futures_entry_price" 0.0
      let futures_expiry ← readOptStrField fields "futures_expiry"
      let opened_at ← readOptStrField fields "opened_at"
      pure { etf_shares, etf_symbol, etf_entry_price, futures_contracts,
             futures_symbol, futures_entry_price, futures_expiry, opened_at }
  | _ => .error .attributeError

/-- State of the position-state file on disk. -/
inductive FileContent where
  | absent
  | unparsable
  | parsed (j : JVal)

/-- `PositionTracker.load`: missing file or a `json.JSONDecodeError` yields
the empty position (with a logged warning); a parsed value goes through
`Position.from_dict`, whose `AttributeError` on a non-object value is *not*
caught. -/
def PositionTracker.load (file : FileContent) : Except PyErr Position :=
  match file with
  | .absent => .ok {}
  | .unparsable => .ok {}
  | .parsed j => Position.from_dict j

/-- `PositionTracker.save`: serialize the position to the file. -/
def PositionTracker.save (p : Position) : FileContent :=
  .parsed p.to_dict

/-- A `PositionTracker`: its in-memory `Position` plus the backing file. -/
structure TrackerState where
  position : Position
  file : FileContent

/-- `PositionTracker.save` as a tracker operation. -/
def TrackerState.save (t : TrackerState) : TrackerState :=
  { t with file := PositionTracker.save t.position }

/-- `PositionTracker.clear`: empty position, persisted. -/
def TrackerState.clear (t : TrackerState) : TrackerState :=
  TrackerState.save { t with position := {} }

/-- `PositionTracker.update_on_entry`: replace the position after an entry
fill and persist; `opened_at` is `datetime.now().isoformat()`, threaded as
`nowIso`. -/
def TrackerState.update_on_entry (t : TrackerState) (etf_shares : ℤ)
    (etf_price : ℚ) (futures_contracts : ℤ) (futures_price : ℚ)
    (etf_symbol futures_symbol : String) (futures_expiry : Option String)
    (nowIso : String) : TrackerState :=
  TrackerState.save
    { t with position :=
        { etf_shares := etf_shares, etf_symbol := etf_symbol,
          etf_entry_price := etf_price, futures_contracts := futures_contracts,
          futures_symbol := futures_symbol, futures_entry_price := futures_price,
          futures_expiry := futures_expiry, opened_at := some nowIso } }

/-- `PositionTracker.update_on_partial_exit`: clamp both legs at zero; if the
position is no longer open, `clear()`, else `save()`. -/
def TrackerState.update_on_partial_exit (t : TrackerState)
    (etf_shares_sold contracts_closed : ℤ) : TrackerState :=
  let pos :=
    { t.position with
        etf_shares := max 0 (t.position.etf_shares - etf_shares_sold),
        futures_contracts := max 0 (t.position.futures_contracts - contracts_closed) }
  let t' := { t with position := pos }
  if pos.is_open = false then t'.clear else t'.save

/-- C7: the tracker round-trips — saving a position and loading the same file
with a fresh tracker reproduces every field — and a partial exit whose amounts
reduce both legs to (at or below) zero leaves a position with
`is_open = false`. -/
theorem C7_tracker_roundtrip_and_partial_exit :
    (∀ p : Position, PositionTracker.load (PositionTracker.save p) = .ok p) ∧
    (∀ (t : TrackerState) (sold closed : ℤ),
      t.position.etf_shares ≤ sold → t.position.futures_contracts ≤ closed →
      (t.update_on_partial_exit sold closed).position.is_open = false) := by
  constructor
  · intro p
    obtain ⟨es, esym, eep, fc, fsym, fep, fe, oa⟩ := p
    cases fe <;> cases oa <;> rfl
  · intro t sold closed h1 h2
    have hs : t.position.etf_shares - sold ≤ 0 := by omega
    have hc : t.position.futures_contracts - closed ≤ 0 := by omega
    unfold TrackerState.update_on_partial_exit
    simp only [max_eq_left hs, max_eq_left hc]
    have hopen : ({ t.position with etf_shares := 0, futures_contracts := 0 } : Position).is_open = false := by
      simp [Position.is_open]
    rw [if_pos hopen]
    rfl

/-- A tracker holding an open 3-share / 2-contract position, for the C7
witness. -/
def witnessTracker : TrackerState :=
  { position := { etf_shares := 3, futures_contracts := 2 }, file := .absent }

/-- Witness for C7's partial-exit conjunct: selling 5 shares and closing 2
contracts empties the 3-share / 2-contract position. -/
theorem C7_tracker_witness :
    witnessTracker.position.etf_shares ≤ 5 ∧
    witnessTracker.position.futures_contracts ≤ 2 ∧
    (witnessTracker.update_on_partial_exit 5 2).position.is_open = false :=
  ⟨by decide, by decide,
    C7_tracker_roundtrip_and_partial_exit.2 witnessTracker 5 2 (by decide) (by decide)⟩

/-- C8 (code bug): `load` returns the empty position for an absent file and
for an unparsable file, and fills defaults for a well-formed object with
missing fields — but a well-formed JSON file whose top-level value is not an
object (e.g. the array `[]`) makes `Position.from_dict` raise
`AttributeError`, which the `except (json.JSONDecodeError, KeyError)` clause
does not catch: startup crashes instead of warning. -/
theorem C8_load_malformed_state :
    PositionTracker.load .absent = .ok ({} : Position) ∧
    PositionTracker.load .unparsable = .ok ({} : Position) ∧
    PositionTracker.load (.parsed (.obj [("etf_shares", .int 7)]))
        = .ok { etf_shares := 7 } ∧
    PositionTracker.load (.parsed (.arr [])) = .error .attributeError :=
  ⟨rfl, rfl, rfl, rfl⟩

/-! ### Execution models and order sequencing
(`src/btc_basis/execution/models.py`, `executor.py`, `manager.py`) -/

/-- `OrderSide` enum. -/
inductive OrderSide where
  | BUY
  | SELL
deriving Repr, DecidableEq

/-- `OrderType` enum. -/
inductive OrderType where
  | MARKET
  | LIMIT
deriving Repr, DecidableEq

/-- `OrderStatus` enum. -/
inductive OrderStatus where
  | PENDING
  | SUBMITTED
  | FILLED
  | PARTIALLY_FILLED
  | CANCELLED
  | FAILED
deriving Repr, DecidableEq

/-- `TradeAction` enum. -/
inductive TradeAction where
  | OPEN
  | CLOSE
  | REDUCE
  | NONE
deriving Repr, DecidableEq

/-- `ExecutionConfig` dataclass (field defaults as in source). -/
structure ExecutionConfig where
  enabled : Bool := false
  auto_trade : Bool := false
  spot_symbol : String := "IBIT"
  futures_symbol : String := "MBT"
  order_type : String := "limit"
  limit_offset_pct : ℚ := 0.001
  max_etf_shares : ℤ := 10000
  max_futures_contracts : ℤ := 50
  execution_client_id : ℤ := 2
  dry_run : Bool := true
deriving Repr, DecidableEq

/-- `OrderRequest` dataclass (the wall-clock `timestamp` field, which carries
no decision content, is not modelled). -/
structure OrderRequest where
  side : OrderSide
  symbol : String
  quantity : ℚ
  order_type : OrderType := .MARKET
  limit_price : Option ℚ := none
  signal : Option String := none
  reason : Option String := none
deriving Repr, DecidableEq

/-- `OrderResult` dataclass (again without the wall-clock timestamp). -/
structure OrderResult where
  status : OrderStatus
  order_request : OrderRequest
  fill_price : Option ℚ := none
  filled_qty : Option ℚ := none
  commission : Option ℚ := none
  error : Option String := none
deriving Repr, DecidableEq

/-- Python `x or y` on an optional float: `x` when present and nonzero,
else `y`. -/
def pyOr (a : Option ℚ) (b : ℚ) : ℚ :=
  match a with
  | some q => if q ≠ 0 then q else b
  | none => b

/-- `IBKRExecutor.execute_order`: in dry-run mode, `PENDING` without
submitting; not connected gives `FAILED`; otherwise the order is handed to
the broker, modelled by the oracle `broker` (which abstracts contract
creation and `_place_and_wait`, including its timeout/cancel and exception
paths — all outcomes simply arrive as an `OrderResult`). -/
def execute_order (cfg : ExecutionConfig) (connected : Bool)
    (broker : OrderRequest → OrderResult) (req : OrderRequest) : OrderResult :=
  if cfg.dry_run then
    { status := .PENDING, order_request := req,
      error := some "Dry run — order not submitted" }
  else if connected = false then
    { status := .FAILED, order_request := req,
      error := some "Not connected to IBKR" }
  else broker req

/-- The leg-1 (BUY spot/ETF) request built by `execute_entry_pair`. -/
def entry_etf_request (cfg : ExecutionConfig) (etf_shares : ℤ)
    (etf_price : Option ℚ) : OrderRequest :=
  { side := .BUY, symbol := cfg.spot_symbol, quantity := (etf_shares : ℚ),
    order_type := if cfg.order_type = "limit" then .LIMIT else .MARKET,
    limit_price :=
      if cfg.order_type = "limit" then
        match etf_price with
        | some p =>
            if p ≠ 0 then some (pyRound2 (p * (1 + cfg.limit_offset_pct))) else none
        | none => none
      else none,
    signal := some "ENTRY", reason := some "Basis trade entry — spot leg" }

/-- The leg-2 (SELL futures) request built by `execute_entry_pair`. -/
def entry_futures_request (cfg : ExecutionConfig) (futures_contracts : ℤ)
    (futures_price : Option ℚ) : OrderRequest :=
  { side := .SELL, symbol := cfg.futures_symbol,
    quantity := (futures_contracts : ℚ),
    order_type := if cfg.order_type = "limit" then .LIMIT else .MARKET,
    limit_price :=
      if cfg.order_type = "limit" then
        match futures_price with
        | some p =>
            if p ≠ 0 then some (pyRound2 (p * (1 - cfg.limit_offset_pct))) else none
        | none => none
      else none,
    signal := some "ENTRY", reason := some "Basis trade entry — futures leg" }

/-- Result of `execute_entry_pair`, together with the ordered list of order
requests actually handed to `execute_order` and the tracker afterwards. -/
structure EntryPairResult where
  etf_result : OrderResult
  futures_result : Option OrderResult
  submitted : List OrderRequest
  tracker : TrackerState

/-- `IBKRExecutor.execute_entry_pair`: BUY ETF first; if that result's status
is neither FILLED nor PENDING, abort without submitting the futures leg;
otherwise SELL futures, and update the tracker only when both legs are
FILLED (fill quantities/prices falling back per Python `or`). -/
def execute_entry_pair (cfg : ExecutionConfig) (connected : Bool)
    (broker : OrderRequest → OrderResult) (tracker : TrackerState)
    (nowIso : String) (etf_shares futures_contracts : ℤ)
    (etf_price futures_price : Option ℚ) (futures_expiry : Option String) :
    EntryPairResult :=
  let etf_request := entry_etf_request cfg etf_shares etf_price
  let etf_result := execute_order cfg connected broker etf_request
  if etf_result.status ≠ .FILLED ∧ etf_result.status ≠ .PENDING then
    { etf_result := etf_result, futures_result := none,
      submitted := [etf_request], tracker := tracker }
  else
    let futures_request := entry_futures_request cfg futures_contracts futures_price
    let futures_result := execute_order cfg connected broker futures_request
    let tracker' :=
      if etf_result.status = .FILLED ∧ futures_result.status = .FILLED then
        tracker.update_on_entry
          (pyTrunc (pyOr etf_result.filled_qty (etf_shares : ℚ)))
          (pyOr etf_result.fill_price (pyOr etf_price 0))
          (pyTrunc (pyOr futures_result.filled_qty (futures_contracts : ℚ)))
          (pyOr futures_result.fill_price (pyOr futures_price 0))
          cfg.spot_symbol cfg.futures_symbol futures_expiry nowIso
      else tracker
    { etf_result := etf_result, futures_result := some futures_result,
      submitted := [etf_request, futures_request], tracker := tracker' }

/-- `ExecutionManager._determine_action` (`manager.py`), as a function of the
signal and `tracker.position.is_open`. -/
def determine_action (signal : Signal) (has_position : Bool) : TradeAction :=
  if signal = .STRONG_ENTRY ∨ signal = .ACCEPTABLE_ENTRY then
    if has_position = false then .OPEN else .NONE
  else if signal = .FULL_EXIT ∨ signal = .STOP_LOSS then
    if has_position then .CLOSE else .NONE
  else if signal = .PARTIAL_EXIT then
    if has_position then .REDUCE else .NONE
  else .NONE

/-- The full action table as the specification (§4.4) words it. -/
def spec_action_table (signal : Signal) (is_open : Bool) : TradeAction :=
  match signal, is_open with
  | .STRONG_ENTRY, false => .OPEN
  | .STRONG_ENTRY, true => .NONE
  | .ACCEPTABLE_ENTRY, false => .OPEN
  | .ACCEPTABLE_ENTRY, true => .NONE
  | .FULL_EXIT, true => .CLOSE
  | .FULL_EXIT, false => .NONE
  | .STOP_LOSS, true => .CLOSE
  | .STOP_LOSS, false => .NONE
  | .PARTIAL_EXIT, true => .REDUCE
  | .PARTIAL_EXIT, false => .NONE
  | .NO_ENTRY, _ => .NONE
  | .HOLD, _ => .NONE

/-- C2: on entry, the spot (ETF) leg is submitted first; whenever its result
status is neither FILLED nor PENDING, the futures leg is never submitted
(exactly the one spot order was attempted, the futures result is `None`) and
the position tracker is unchanged. -/
theorem C2_entry_aborts_on_spot_failure :
    ∀ (cfg : ExecutionConfig) (connected : Bool)
      (broker : OrderRequest → OrderResult) (tracker : TrackerState)
      (nowIso : String) (etf_shares futures_contracts : ℤ)
      (etf_price futures_price : Option ℚ) (futures_expiry : Option String),
      (execute_entry_pair cfg connected broker tracker nowIso etf_shares
          futures_contracts etf_price futures_price futures_expiry).submitted.head?
        = some (entry_etf_request cfg etf_shares etf_price) ∧
      ((execute_entry_pair cfg connected broker tracker nowIso etf_shares
          futures_contracts etf_price futures_price futures_expiry).etf_result.status
          ≠ OrderStatus.FILLED →
        (execute_entry_pair cfg connected broker tracker nowIso etf_shares
          futures_contracts etf_price futures_price futures_expiry).etf_result.status
          ≠ OrderStatus.PENDING →
        (execute_entry_pair cfg connected broker tracker nowIso etf_shares
            futures_contracts etf_price futures_price futures_expiry).futures_result
            = none ∧
        (execute_entry_pair cfg connected broker tracker nowIso etf_shares
            futures_contracts etf_price futures_price futures_expiry).submitted
            = [entry_etf_request cfg etf_shares etf_price] ∧
        (execute_entry_pair cfg connected broker tracker nowIso etf_shares
            futures_contracts etf_price futures_price futures_expiry).tracker
            = tracker) := by
  intro cfg connected broker tracker nowIso es fc ep fp fe
  dsimp only [execute_entry_pair]
  split
  · exact ⟨rfl, fun _ _ => ⟨rfl, rfl, rfl⟩⟩
  · rename_i h
    exact ⟨rfl, fun h1 h2 => absurd ⟨h1, h2⟩ h⟩

/-- A broker oracle that rejects every order, for the C2 witness. -/
def brokerReject : OrderRequest → OrderResult :=
  fun req => { status := .FAILED, order_request := req,
               error := some "simulated rejection" }

/-- A live (non-dry-run) execution config, for the C2 witness. -/
def liveExecCfg : ExecutionConfig := { dry_run := false }

/-- Witness for C2: against an always-rejecting broker the ETF leg comes back
FAILED, no futures order is submitted, and the tracker is untouched. -/
theorem C2_entry_abort_witness :
    (execute_entry_pair liveExecCfg true brokerReject ⟨{}, .absent⟩ "t" 10 2
        (some 54) (some 97000) none).etf_result.status ≠ OrderStatus.FILLED ∧
    (execute_entry_pair liveExecCfg true brokerReject ⟨{}, .absent⟩ "t" 10 2
        (some 54) (some 97000) none).etf_result.status ≠ OrderStatus.PENDING ∧
    (execute_entry_pair liveExecCfg true brokerReject ⟨{}, .absent⟩ "t" 10 2
        (some 54) (some 97000) none).futures_result = none ∧
    (execute_entry_pair liveExecCfg true brokerReject ⟨{}, .absent⟩ "t" 10 2
        (some 54) (some 97000) none).tracker = ⟨{}, .absent⟩ := by
  have h := C2_entry_aborts_on_spot_failure liveExecCfg true brokerReject
    ⟨{}, .absent⟩ "t" 10 2 (some 54) (some 97000) none
  have h1 : (execute_entry_pair liveExecCfg true brokerReject ⟨{}, .absent⟩ "t"
      10 2 (some 54) (some 97000) none).etf_result.status ≠ OrderStatus.FILLED := by
    with_unfolding_all decide
  have h2 : (execute_entry_pair liveExecCfg true brokerReject ⟨{}, .absent⟩ "t"
      10 2 (some 54) (some 97000) none).etf_result.status ≠ OrderStatus.PENDING := by
    with_unfolding_all decide
  exact ⟨h1, h2, (h.2 h1 h2).1, (h.2 h1 h2).2.2⟩

/-- C6: the manager's signal→action mapping satisfies the spec's full table
for every signal and every position state: entries OPEN only when flat,
FULL_EXIT/STOP_LOSS CLOSE only when open, PARTIAL_EXIT REDUCE only when open,
NO_ENTRY and HOLD always NONE. -/
theorem C6_action_table :
    ∀ (signal : Signal) (p : Position),
      determine_action signal p.is_open = spec_action_table signal p.is_open := by
  intro signal p
  cases signal <;> cases h : p.is_open <;>
    simp [determine_action, spec_action_table]

/-! ### Backtest engine (`btc_basis_backtest.py`)

The backtester imports the legacy `btc_basis_trade_analyzer` module, whose
`MarketData`/`TradeConfig` match `core/models.py` exactly; its
`generate_signal` differs from `core/analyzer.py` only in hard-coding the
0.5% acceptable-entry threshold and two reason strings. -/

/-- `BasisTradeAnalyzer.generate_signal` of the legacy
`btc_basis_trade_analyzer.py`, used by the backtester. -/
def generate_signal_legacy (cfg : TradeConfig) (m : MarketData) (now : ℤ) :
    Signal × String :=
  let monthly_basis := m.monthly_basis now
  if monthly_basis < 0 then
    (.STOP_LOSS, "Backwardation detected - basis negative")
  else if monthly_basis < 0.002 then
    (.STOP_LOSS, "Basis compressed below 0.2% monthly")
  else
    let monthly_funding := cfg.funding_cost_annual / 12
    if monthly_basis < monthly_funding then
      (.STOP_LOSS, "Basis below funding cost (" ++ fmtFixed 2 (monthly_funding * 100) ++ "% monthly)")
    else if etf_stress_check m then
      (.STOP_LOSS, "ETF discount > 1% - liquidity stress")
    else if monthly_basis > 0.035 then
      (.FULL_EXIT, "Basis at peak levels (>3.5% monthly) - take profit")
    else if monthly_basis > 0.025 then
      (.PARTIAL_EXIT, "Elevated basis (>2.5% monthly) - partial exit")
    else if monthly_basis > 0.01 then
      if fear_greed_check m then
        (.STRONG_ENTRY, "Strong basis + high Fear & Greed - optimal entry")
      else
        (.STRONG_ENTRY, "Strong basis >1.0% monthly")
    else if monthly_basis > 0.005 then
      (.ACCEPTABLE_ENTRY, "Acceptable basis 0.5-1.0% monthly")
    else
      (.NO_ENTRY, "Basis too low (" ++ fmtFixed 2 (monthly_basis * 100) ++ "% monthly)")

/-- A row of the historical data series (`date, spot_price, futures_price,
futures_expiry`). -/
structure DataPoint where
  date : ℤ
  spot_price : ℚ
  futures_price : ℚ
  futures_expiry : ℤ
deriving Repr, DecidableEq

/-- `Trade` dataclass of the backtester (field defaults as in source). -/
structure Trade where
  entry_date : ℤ
  entry_spot : ℚ
  entry_futures : ℚ
  entry_basis : ℚ
  exit_date : Option ℤ := none
  exit_spot : Option ℚ := none
  exit_futures : Option ℚ := none
  exit_basis : Option ℚ := none
  position_size : ℚ := 1.0
  funding_cost : ℚ := 0.0
  realized_pnl : Option ℚ := none
  status : String := "open"
deriving Repr, DecidableEq

/-- The `MarketData` the backtest loop builds from a data point
(`as_of_date` set to the historical date). -/
def dataPointMarket (d : DataPoint) : MarketData :=
  { spot_price := d.spot_price, futures_price := d.futures_price,
    futures_expiry_date := d.futures_expiry, as_of_date := some d.date }

/-- Closing an open trade against a data point inside the loop (exit signal
or max holding period): sets exit date/spot/futures/basis, computes
P&L = spot P&L + futures P&L − funding cost. -/
def close_trade (cfg : TradeConfig) (t : Trade) (d : DataPoint)
    (status : String) : Trade :=
  let market := dataPointMarket d
  let spot_pnl := (market.spot_price - t.entry_spot) * t.position_size
  let futures_pnl := (t.entry_futures - market.futures_price) * t.position_size
  let funding_cost := (cfg.funding_cost_annual / 365) *
    ((d.date - t.entry_date : ℤ) : ℚ) * (t.entry_spot * t.position_size)
  { t with exit_date := some d.date, exit_spot := some market.spot_price,
           exit_futures := some market.futures_price,
           exit_basis := some market.basis_absolute,
           realized_pnl := some (spot_pnl + futures_pnl - funding_cost),
           status := status }

/-- Force-closing the still-open trade against the last data point at the end
of the backtest (status `forced_close`; the source leaves `exit_basis`
unset here). -/
def force_close_trade (cfg : TradeConfig) (t : Trade) (last : DataPoint) : Trade :=
  let spot_pnl := (last.spot_price - t.entry_spot) * t.position_size
  let futures_pnl := (t.entry_futures - last.futures_price) * t.position_size
  let funding_cost := (cfg.funding_cost_annual / 365) *
    ((last.date - t.entry_date : ℤ) : ℚ) * (t.entry_spot * t.position_size)
  { t with exit_date := some last.date, exit_spot := some last.spot_price,
           exit_futures := some last.futures_price,
           status := "forced_close",
           realized_pnl := some (spot_pnl + futures_pnl - funding_cost) }

/-- Loop state of `run_backtest`: closed trades so far plus the optional open
trade. -/
structure BtState where
  trades : List Trade
  current : Option Trade

/-- The exit block of a loop iteration: while a trade is open, close it on
STOP_LOSS/FULL_EXIT (status `stopped_out`/`closed`) or when the holding
period reaches the maximum (status `closed`). -/
def exit_stage (cfg : TradeConfig) (max_holding_days : ℤ) (d : DataPoint)
    (signal : Signal) (st : BtState) : BtState :=
  match st.current with
  | some t =>
      if signal = .STOP_LOSS ∨ signal = .FULL_EXIT then
        { trades := st.trades ++
            [close_trade cfg t d (if signal = .STOP_LOSS then "stopped_out" else "closed")],
          current := none }
      else if d.date - t.entry_date ≥ max_holding_days then
        { trades := st.trades ++ [close_trade cfg t d "closed"], current := none }
      else st
  | none => st

/-- The entry block of a loop iteration: with no open trade, open one (unit
position size) on STRONG_ENTRY/ACCEPTABLE_ENTRY. -/
def entry_stage (d : DataPoint) (signal : Signal) (st : BtState) : BtState :=
  match st.current with
  | none =>
      if signal = .STRONG_ENTRY ∨ signal = .ACCEPTABLE_ENTRY then
        let t : Trade :=
          { entry_date := d.date, entry_spot := (dataPointMarket d).spot_price,
            entry_futures := (dataPointMarket d).futures_price,
            entry_basis := (dataPointMarket d).basis_absolute,
            position_size := 1.0 }
        { st with current := some t }
      else st
  | some _ => st

/-- One iteration of the `run_backtest` loop over a data point: recompute the
signal (same signal code as live), run the exit block, then the entry block
(a close and a re-entry can happen on the same data point, as in the
source). The ambient-clock argument of the signal function is irrelevant —
every snapshot carries `as_of_date` — and fixed to 0. -/
def backtest_step (cfg : TradeConfig) (max_holding_days : ℤ) (st : BtState)
    (d : DataPoint) : BtState :=
  let signal := (generate_signal_legacy cfg (dataPointMarket d) 0).1
  entry_stage d signal (exit_stage cfg max_holding_days d signal st)

/-- The `run_backtest` iteration over the whole series. -/
def run_backtest_loop (cfg : TradeConfig) (max_holding_days : ℤ)
    (data : List DataPoint) : BtState :=
  data.foldl (backtest_step cfg max_holding_days) { trades := [], current := none }

/-- `Backtester.run_backtest`, restricted to the trade list it accumulates:
run the loop, then force-close any still-open trade against the last data
point. -/
def run_backtest (cfg : TradeConfig) (max_holding_days : ℤ)
    (data : List DataPoint) : List Trade :=
  let st := run_backtest_loop cfg max_holding_days data
  match st.current, data.getLast? with
  | some t, some last => st.trades ++ [force_close_trade cfg t last]
  | _, _ => st.trades

/-- The claimed P&L identity for a closed trade: realized P&L equals
`(exit_spot - entry_spot) * size + (entry_futures - exit_futures) * size -
funding_cost` with `funding_cost = (funding_cost_annual / 365) *
holding_days * (entry_spot * size)`. -/
def pnl_formula_ok (cfg : TradeConfig) (t : Trade) : Prop :=
  ∃ (ed : ℤ) (es ef : ℚ),
    t.exit_date = some ed ∧ t.exit_spot = some es ∧ t.exit_futures = some ef ∧
    t.realized_pnl = some ((es - t.entry_spot) * t.position_size +
      (t.entry_futures - ef) * t.position_size -
      (cfg.funding_cost_annual / 365) * ((ed - t.entry_date : ℤ) : ℚ) *
        (t.entry_spot * t.position_size))

lemma close_trade_pnl (cfg : TradeConfig) (t : Trade) (d : DataPoint)
    (status : String) : pnl_formula_ok cfg (close_trade cfg t d status) :=
  ⟨d.date, d.spot_price, d.futures_price, rfl, rfl, rfl, rfl⟩

lemma force_close_trade_pnl (cfg : TradeConfig) (t : Trade) (last : DataPoint) :
    pnl_formula_ok cfg (force_close_trade cfg t last) :=
  ⟨last.date, last.spot_price, last.futures_price, rfl, rfl, rfl, rfl⟩

/-- All trades of a list satisfy the claimed P&L identity. -/
def trades_ok (cfg : TradeConfig) (l : List Trade) : Prop :=
  ∀ t ∈ l, pnl_formula_ok cfg t

lemma trades_ok_append_close (cfg : TradeConfig) (l : List Trade) (t : Trade)
    (d : DataPoint) (status : String) (h : trades_ok cfg l) :
    trades_ok cfg (l ++ [close_trade cfg t d status]) := by
  intro x hx
  rcases List.mem_append.mp hx with hx | hx
  · exact h x hx
  · obtain rfl := List.mem_singleton.mp hx
    exact close_trade_pnl cfg t d status

lemma exit_stage_ok (cfg : TradeConfig) (mh : ℤ) (d : DataPoint)
    (signal : Signal) (st : BtState) (h : trades_ok cfg st.trades) :
    trades_ok cfg (exit_stage cfg mh d signal st).trades := by
  unfold exit_stage
  cases hc : st.current with
  | none => exact h
  | some t =>
      dsimp only
      split_ifs with h1 h2 <;>
        first
        | exact trades_ok_append_close cfg st.trades t d _ h
        | exact h

lemma entry_stage_trades (d : DataPoint) (signal : Signal) (st : BtState) :
    (entry_stage d signal st).trades = st.trades := by
  unfold entry_stage
  cases hc : st.current with
  | none =>
      dsimp only
      split_ifs <;> rfl
  | some t => rfl

lemma backtest_step_ok (cfg : TradeConfig) (mh : ℤ) (st : BtState)
    (d : DataPoint) (h : trades_ok cfg st.trades) :
    trades_ok cfg (backtest_step cfg mh st d).trades := by
  unfold backtest_step
  rw [entry_stage_trades]
  exact exit_stage_ok cfg mh d _ st h

lemma run_loop_ok (cfg : TradeConfig) (mh : ℤ) (data : List DataPoint) :
    trades_ok cfg (run_backtest_loop cfg mh data).trades := by
  unfold run_backtest_loop
  have main : ∀ (l : List DataPoint) (st : BtState), trades_ok cfg st.trades →
      trades_ok cfg (l.foldl (backtest_step cfg mh) st).trades := by
    intro l
    induction l with
    | nil => exact fun st h => h
    | cons a as ih => exact fun st h => ih _ (backtest_step_ok cfg mh st a h)
  exact main data _ (fun t ht => absurd ht (List.not_mem_nil t))

/-- C3: every trade the backtest closes — by exit signal, by the max holding
period, or by the end-of-sequence force close — carries
`realized_pnl = (exit_spot - entry_spot)*size + (entry_futures - exit_futures)*size
- (funding_cost_annual/365)*holding_days*(entry_spot*size)`; and whenever the
loop ends with a trade still open, the result's last trade is that trade
force-closed against the last snapshot with status `forced_close`. -/
theorem C3_backtest_pnl_and_forced_close :
    ∀ (cfg : TradeConfig) (max_holding_days : ℤ) (data : List DataPoint),
      (∀ t ∈ run_backtest cfg max_holding_days data, pnl_formula_ok cfg t) ∧
      (∀ (tcur : Trade) (last : DataPoint),
        (run_backtest_loop cfg max_holding_days data).current = some tcur →
        data.getLast? = some last →
        ∃ tc, (run_backtest cfg max_holding_days data).getLast? = some tc ∧
          tc.status = "forced_close" ∧
          tc.entry_date = tcur.entry_date ∧
          tc.exit_date = some last.date ∧
          tc.exit_spot = some last.spot_price ∧
          tc.exit_futures = some last.futures_price ∧
          pnl_formula_ok cfg tc) := by
  intro cfg mh data
  constructor
  · intro t ht
    rcases hc : (run_backtest_loop cfg mh data).current with _ | tcur
    · simp only [run_backtest, hc] at ht
      exact run_loop_ok cfg mh data t ht
    · rcases hl : data.getLast? with _ | last
      · simp only [run_backtest, hc, hl] at ht
        exact run_loop_ok cfg mh data t ht
      · simp only [run_backtest, hc, hl] at ht
        rcases List.mem_append.mp ht with hx | hx
        · exact run_loop_ok cfg mh data t hx
        · obtain rfl := List.mem_singleton.mp hx
          exact force_close_trade_pnl cfg tcur last
  · intro tcur last hc hl
    refine ⟨force_close_trade cfg tcur last, ?_, rfl, rfl, rfl, rfl, rfl,
      force_close_trade_pnl cfg tcur last⟩
    simp only [run_backtest, hc, hl]
    exact List.getLast?_concat _

/-- Day 0 of the two-day constant-2%-basis series. -/
def dp0 : DataPoint :=
  { date := 0, spot_price := 100000, futures_price := 102000, futures_expiry := 30 }

/-- Day 1 of the two-day constant-2%-basis series. -/
def dp1 : DataPoint :=
  { date := 1, spot_price := 100000, futures_price := 102000, futures_expiry := 31 }

/-- Two-day constant-2%-basis series: entry fires on day 0, the trade is
still open on day 1 and gets force-closed. -/
def btData : List DataPoint := [dp0, dp1]

/-- The trade that the backtest on `btData` opens on day 0. -/
def btOpenTrade : Trade :=
  { entry_date := 0, entry_spot := 100000, entry_futures := 102000,
    entry_basis := 102000 - 100000 }

lemma btSignal0 :
    (generate_signal_legacy {} (dataPointMarket dp0) 0).1 = Signal.STRONG_ENTRY := by
  have hmb : (dataPointMarket dp0).monthly_basis 0 = 0.02 := by
    unfold MarketData.monthly_basis MarketData.days_to_expiry
      MarketData.basis_percent MarketData.basis_absolute dataPointMarket dp0
    norm_num
  have hetf : etf_stress_check (dataPointMarket dp0) = false := rfl
  have hfg : fear_greed_check (dataPointMarket dp0) = false := rfl
  unfold generate_signal_legacy
  rw [hmb, hetf, hfg]
  norm_num

lemma btSignal1 :
    (generate_signal_legacy {} (dataPointMarket dp1) 0).1 = Signal.STRONG_ENTRY := by
  have hmb : (dataPointMarket dp1).monthly_basis 0 = 0.02 := by
    unfold MarketData.monthly_basis MarketData.days_to_expiry
      MarketData.basis_percent MarketData.basis_absolute dataPointMarket dp1
    norm_num
  have hetf : etf_stress_check (dataPointMarket dp1) = false := rfl
  have hfg : fear_greed_check (dataPointMarket dp1) = false := rfl
  unfold generate_signal_legacy
  rw [hmb, hetf, hfg]
  norm_num

lemma btStep0 :
    backtest_step {} 30 { trades := [], current := none } dp0
      = { trades := [], current := some btOpenTrade } := by
  unfold backtest_step
  rw [btSignal0]
  unfold exit_stage entry_stage
  dsimp only
  rw [if_pos (Or.inl rfl)]
  rfl

lemma btStep1 :
    backtest_step {} 30 { trades := [], current := some btOpenTrade } dp1
      = { trades := [], current := some btOpenTrade } := by
  unfold backtest_step
  rw [btSignal1]
  unfold exit_stage
  dsimp only
  rw [if_neg (by simp), if_neg (by norm_num [dp1, btOpenTrade])]
  rfl

lemma btLoop :
    run_backtest_loop {} 30 btData = { trades := [], current := some btOpenTrade } := by
  unfold run_backtest_loop btData
  rw [List.foldl_cons, List.foldl_cons, List.foldl_nil, btStep0, btStep1]

lemma btResult :
    run_backtest {} 30 btData = [force_close_trade {} btOpenTrade dp1] := by
  simp only [run_backtest]
  rw [btLoop]
  rfl

/-- Witness for C3 on the concrete two-day series: the force-closed trade is
in the result and satisfies the P&L identity, and the end-of-loop open trade
is force-closed against the last snapshot with status `forced_close`. -/
theorem C3_backtest_witness :
    pnl_formula_ok {} (force_close_trade {} btOpenTrade dp1) ∧
    (∃ tc, (run_backtest {} 30 btData).getLast? = some tc ∧
      tc.status = "forced_close" ∧
      tc.entry_date = btOpenTrade.entry_date ∧
      tc.exit_date = some dp1.date ∧
      tc.exit_spot = some dp1.spot_price ∧
      tc.exit_futures = some dp1.futures_price ∧
      pnl_formula_ok {} tc) := by
  have h := C3_backtest_pnl_and_forced_close {} 30 btData
  have hmem : force_close_trade {} btOpenTrade dp1 ∈ run_backtest {} 30 btData := by
    rw [btResult]
    exact List.mem_singleton.mpr rfl
  have hcur : (run_backtest_loop {} 30 btData).current = some btOpenTrade := by
    rw [btLoop]
  exact ⟨h.1 _ hmem, h.2 btOpenTrade dp1 hcur rfl⟩
